import Mathlib

/-!
Shallow embedding of the generation-history store and polling logic of the
Valentine's Song Generator (the `MusicGenerator` component).  Machine state
that lives in the browser (React state, `localStorage`) is made explicit:
`StoreState` carries the in-memory history list and the persisted value under
the single storage key, and each handler of the component becomes a pure
state-transformer.  `Date.now()` is passed in as an explicit `now : Nat`.
JavaScript's "missing field" is `Option.none`; a raw (pre-normalization) item
uses `Option` for the fields the code guards with `||` or coerces.
-/

namespace ValentineSong

/-- The three local task states the store normalizes every item into. -/
inductive Status where
  | pending
  | completed
  | failed
deriving DecidableEq, Repr

/-- String form of a status, as it is stored in the JSON list. -/
def Status.toStr : Status → String
  | .pending => "pending"
  | .completed => "completed"
  | .failed => "failed"

/-- A generated song, from `types/api` (fields used by the component). -/
structure Song where
  id : String
  title : String
  tags : List String
  song_path : String
  image_path : String
  finished : Bool
deriving DecidableEq, Repr

/-- A history item as it may arrive at the store boundary (the
`HistoryItemInput` type / a freshly `JSON.parse`d stored item): `status` is an
arbitrary string or missing, `timestamp` may be missing.  In JavaScript a
missing `id`/`prompt` and the empty string behave identically at every use
site here (both falsy under `||`, both distinct from any real id), so they are
collapsed to `String`; a missing `timestamp` and `0` likewise behave
identically (both falsy), but `timestamp` is kept as `Option Nat` to state the
"missing timestamp defaults to now" behavior exactly. -/
structure RawItem where
  id : String
  prompt : String
  status : Option String
  timestamp : Option Nat
  completedAt : Option Nat
  songs : Option (List Song)
  error : Option String
  tags : Option String
deriving DecidableEq, Repr

/-- A normalized history item as held in React state after `updateHistory`
ran: status is one of the three valid values and a timestamp is present. -/
structure HistoryItem where
  id : String
  prompt : String
  status : Status
  timestamp : Nat
  completedAt : Option Nat
  songs : Option (List Song)
  error : Option String
  tags : Option String
deriving DecidableEq, Repr

/-- JavaScript `s || d` on strings: the empty string is falsy. -/
def jsOr (s d : String) : String := if s = "" then d else s

/-- The status coercion inside `updateHistory`:
`['pending','completed','failed'].includes(item.status) ? item.status : 'pending'`.
A missing status is not included in the list, hence also becomes pending. -/
def normalizeStatus (st : Option String) : Status :=
  match st with
  | some s =>
    if s = "pending" then .pending
    else if s = "completed" then .completed
    else if s = "failed" then .failed
    else .pending
  | none => .pending

/-- Per-item normalization performed by `updateHistory` before every write:
`id: item.id || ''`, `prompt: item.prompt || ''`, the status coercion above,
and `timestamp: item.timestamp || Date.now()` (so a missing or zero timestamp
becomes `now`).  All other fields are spread through unchanged. -/
def normalizeItem (now : Nat) (item : RawItem) : HistoryItem :=
  { id := jsOr item.id ""
    prompt := jsOr item.prompt ""
    status := normalizeStatus item.status
    timestamp :=
      match item.timestamp with
      | some t => if t = 0 then now else t
      | none => now
    completedAt := item.completedAt
    songs := item.songs
    error := item.error
    tags := item.tags }

/-- The list-level normalization of `updateHistory`. -/
def updateHistory (now : Nat) (l : List RawItem) : List HistoryItem :=
  l.map (normalizeItem now)

/-- View a normalized item back at the raw boundary (in JavaScript both have
the same runtime shape; this is the identity embedding). -/
def HistoryItem.toRaw (i : HistoryItem) : RawItem :=
  { id := i.id
    prompt := i.prompt
    status := some i.status.toStr
    timestamp := some i.timestamp
    completedAt := i.completedAt
    songs := i.songs
    error := i.error
    tags := i.tags }

/-- The value under the `music_generation_history` localStorage key, seen
through `JSON.parse`: either a string that fails to parse, or a list. -/
inductive StorageVal where
  | corrupt : StorageVal
  | list : List RawItem → StorageVal
deriving DecidableEq, Repr

/-- The store's state: React `history` state plus the persisted key
(`none` = key absent). -/
structure StoreState where
  history : List HistoryItem
  storage : Option StorageVal
deriving DecidableEq, Repr

/-- Tail of every `updateHistory` call: `setHistory(validHistory)` and
`localStorage.setItem(HISTORY_KEY, JSON.stringify(validHistory))` — the same
normalized list goes to memory and to storage. -/
def saveOp (now : Nat) (l : List RawItem) : StoreState :=
  let v := updateHistory now l
  ⟨v, some (.list (v.map HistoryItem.toRaw))⟩

/-- `addToHistory`: forces `status: 'pending'` and `completedAt: undefined` on
the incoming item, prepends it to the current list and saves. -/
def addToHistoryOp (now : Nat) (item : RawItem) (s : StoreState) : StoreState :=
  saveOp now ({ item with status := some "pending", completedAt := none }
    :: s.history.map HistoryItem.toRaw)

/-- `removeFromHistory`: filters out the id and saves. -/
def removeFromHistoryOp (now : Nat) (id : String) (s : StoreState) : StoreState :=
  saveOp now ((s.history.filter (fun i => i.id ≠ id)).map HistoryItem.toRaw)

/-- A `Partial<GenerationHistoryItem>` as passed to `updateHistoryItem`: an
outer `none` means the key is absent from the update object (the old value is
kept by the spread); for `songs` the key can be present with an undefined
value (`songs: output.songs`), hence the nested `Option`. -/
structure HistoryUpdates where
  status : Option Status
  songs : Option (Option (List Song))
  completedAt : Option Nat
  timestamp : Option Nat
  error : Option String
deriving DecidableEq, Repr

/-- The spread `{ ...item, ...updates }`. -/
def mergeUpdates (u : HistoryUpdates) (i : HistoryItem) : HistoryItem :=
  { i with
    status := u.status.getD i.status
    songs :=
      match u.songs with
      | some v => v
      | none => i.songs
    completedAt :=
      match u.completedAt with
      | some v => some v
      | none => i.completedAt
    timestamp := u.timestamp.getD i.timestamp
    error :=
      match u.error with
      | some v => some v
      | none => i.error }

/-- The per-item step of `updateHistoryItem`:
`item.id === id ? { ...item, ...updates } : item`. -/
def applyUpdateAt (id : String) (u : HistoryUpdates) (i : HistoryItem) :
    HistoryItem :=
  if i.id = id then mergeUpdates u i else i

/-- `updateHistoryItem`: merge the fields into the matching item (no-op on the
rest) and save. -/
def updateHistoryItemOp (now : Nat) (id : String) (u : HistoryUpdates)
    (s : StoreState) : StoreState :=
  saveOp now ((s.history.map (applyUpdateAt id u)).map HistoryItem.toRaw)

/-- The status coercion of the mount-time load effect:
`(item.status === 'completed' || item.status === 'failed') ? item.status : 'pending'`. -/
def loadStatus (st : Option String) : Status :=
  match st with
  | some s =>
    if s = "completed" then .completed
    else if s = "failed" then .failed
    else .pending
  | none => .pending

/-- The mount-time load keeps every other field as parsed (a missing timestamp
is collapsed to `0`, which is behaviorally identical in JavaScript: both are
falsy and both compare the same at every use site of this component). -/
def loadCoerce (item : RawItem) : HistoryItem :=
  { id := item.id
    prompt := item.prompt
    status := loadStatus item.status
    timestamp := item.timestamp.getD 0
    completedAt := item.completedAt
    songs := item.songs
    error := item.error
    tags := item.tags }

/-- The mount-time load effect: if the key is absent, nothing happens; if the
stored value fails to parse, the catch block removes the key and `setHistory`
is never called; otherwise the coerced list replaces the in-memory history
(storage itself is not rewritten). -/
def loadHistoryOp (s : StoreState) : StoreState :=
  match s.storage with
  | none => s
  | some .corrupt => { s with storage := none }
  | some (.list l) => { s with history := l.map loadCoerce }

/-- `taskDetails.data` of the reconciliation poller's status endpoint:
`{ status, output: { songs }, error: { message } }`, with the song list and
the error message possibly absent. -/
structure TaskData where
  status : String
  output_songs : Option (List Song)
  error_message : Option String
deriving DecidableEq, Repr

/-- One mapping step of `updateHistoryWithCompletedTasks` over a parsed stored
item: only pending items are checked; a `none` fetch (request failure, modeled
after `fetchTaskDetails` returning `null`) leaves the item alone; a terminal
external status rewrites the item as in the source (`songs: output.songs || []`
only on completed, `error: error?.message` only on failed,
`completedAt: Date.now()` on both); any other external status leaves the item
unchanged. -/
def reconcileRaw (fetch : String → Option TaskData) (now : Nat)
    (item : RawItem) : RawItem :=
  if item.status = some "pending" then
    match fetch item.id with
    | none => item
    | some td =>
      if td.status = "completed" ∨ td.status = "failed" then
        { item with
          status := some (if td.status = "completed" then "completed" else "failed")
          songs := if td.status = "completed" then some (td.output_songs.getD []) else none
          error := if td.status = "failed" then td.error_message else none
          completedAt := some now }
      else item
  else item

/-- The style options state of the component. -/
structure SelectedOptions where
  genre : String
  voiceType : String
  mood : String
  era : String
deriving DecidableEq, Repr

/-- `voiceTags` of `generateMusic`: any `voiceType` other than `"female"`
selects the male tag list. -/
def voiceTags (o : SelectedOptions) : List String :=
  if o.voiceType = "female" then ["female_vocals", "female_voice", "female_singer"]
  else ["male_vocals", "male_voice", "male_singer"]

/-- `negativeTags` of `generateMusic`. -/
def negativeTags (o : SelectedOptions) : List String :=
  if o.voiceType = "female" then ["male_vocals", "male_voice", "male_singer"]
  else ["female_vocals", "female_voice", "female_singer"]

/-- `voiceDescription` of `generateMusic`. -/
def voiceDescription (o : SelectedOptions) : String :=
  if o.voiceType = "female" then "female vocal, female singer, female voice"
  else "male vocal, male singer, male voice"

/-- The `input` object of the POST body built by `generateMusic` (the random
seed is made an explicit argument). -/
structure RequestInput where
  gpt_description_prompt : String
  lyrics_type : String
  make_instrumental : Bool
  negative_tags : String
  prompt : String
  seed : Nat
  tags : String
deriving DecidableEq, Repr

/-- `requestData.input` of `generateMusic`. -/
def buildRequestInput (o : SelectedOptions) (promptText : String) (seed : Nat) :
    RequestInput :=
  { gpt_description_prompt :=
      voiceDescription o ++ ", " ++ o.genre ++ ", " ++ o.mood ++ ", " ++ o.era
    lyrics_type := "user"
    make_instrumental := false
    negative_tags := String.intercalate "," (negativeTags o)
    prompt := promptText
    seed := seed
    tags := String.intercalate "," (voiceTags o) }

/-- The update object `generateMusic`'s dedicated poll loop passes to
`updateHistoryItem` when the per-submission status endpoint reports
`completed`: the songs key is set to `output.songs` with no default, the end
and start times come from `meta` when present. -/
def submissionCompletedUpdates (outputSongs : Option (List Song))
    (metaStarted metaEnded : Option Nat) (startTime now : Nat) : HistoryUpdates :=
  { status := some .completed
    songs := some outputSongs
    completedAt := some (metaEnded.getD now)
    timestamp := some (metaStarted.getD startTime)
    error := none }

/-- The component state relevant to the concurrent-generation guard: the
store, the session-local `pendingCount` counter and the `isLoading` flag. -/
structure AppState where
  store : StoreState
  pendingCount : Nat
  isLoading : Bool
deriving DecidableEq, Repr

/-- Component mount: all React state starts at its `useState` initial value
(`history = []`, `pendingCount = 0`, `isLoading = false`) and the load effect
runs against whatever the storage key holds. -/
def appMount (stored : Option StorageVal) : AppState :=
  { store := loadHistoryOp ⟨[], stored⟩
    pendingCount := 0
    isLoading := false }

/-- The successful submission path of `generateMusic`: `setIsLoading(true)`,
`addToHistory` of the fresh pending item, `setPendingCount(prev => prev + 1)`. -/
def generateMusicSubmit (taskId promptText tagsText : String) (now : Nat)
    (s : AppState) : AppState :=
  { store := addToHistoryOp now
      ⟨taskId, promptText, some "pending", some now, none, none, none, some tagsText⟩
      s.store
    pendingCount := s.pendingCount + 1
    isLoading := true }

/-- The generate button's disabled condition:
`disabled={isLoading || pendingCount > 0}`. -/
def generateDisabled (s : AppState) : Bool :=
  s.isLoading || decide (0 < s.pendingCount)

/-- A history item that round-trips through `updateHistory`'s normalization
unchanged: its timestamp is non-zero (every item written by a save at a
non-zero clock has this shape). -/
abbrev itemNormal (i : HistoryItem) : Prop := i.timestamp ≠ 0

/-- The completed-item invariant of the spec, as a boolean predicate on a
stored (raw) item: status completed implies a songs list is present and a
`completedAt` is present and is at least the timestamp. -/
def completedInvRawB (i : RawItem) : Bool :=
  if i.status = some "completed" then
    i.songs.isSome &&
      (match i.completedAt with
       | some c => decide (i.timestamp.getD 0 ≤ c)
       | none => false)
  else true

/-! ## Helper lemmas -/

theorem jsOr_empty_right (s : String) : jsOr s "" = s := by
  unfold jsOr
  split
  · simp_all
  · rfl

theorem normalizeStatus_toStr (st : Status) :
    normalizeStatus (some st.toStr) = st := by
  cases st <;> rfl

theorem normalizeItem_toRaw (now : Nat) (i : HistoryItem) (h : itemNormal i) :
    normalizeItem now i.toRaw = i := by
  cases i with
  | mk id prompt status timestamp completedAt songs error tags =>
    simp only [normalizeItem, HistoryItem.toRaw, jsOr_empty_right,
      normalizeStatus_toStr]
    simp only [itemNormal] at h
    simp [if_neg h]

theorem updateHistory_map_toRaw (now : Nat) (l : List HistoryItem)
    (h : ∀ i ∈ l, itemNormal i) :
    updateHistory now (l.map HistoryItem.toRaw) = l := by
  induction l with
  | nil => rfl
  | cons a t ih =>
    simp only [updateHistory, List.map_cons, List.map_map] at ih ⊢
    rw [normalizeItem_toRaw now a (h a (by simp))]
    have := ih (fun i hi => h i (by simp [hi]))
    simp only [updateHistory, List.map_map] at this
    rw [this]

theorem mergeUpdates_id_field (u : HistoryUpdates) (i : HistoryItem) :
    (mergeUpdates u i).id = i.id := rfl

theorem mergeUpdates_idem (u : HistoryUpdates) (i : HistoryItem) :
    mergeUpdates u (mergeUpdates u i) = mergeUpdates u i := by
  cases u with
  | mk st so ca ts er =>
    cases st <;> cases so <;> cases ca <;> cases ts <;> cases er <;> rfl

theorem mergeUpdates_normal (u : HistoryUpdates) (i : HistoryItem)
    (h : itemNormal i) (ht : u.timestamp ≠ some 0) :
    itemNormal (mergeUpdates u i) := by
  rcases hu : u.timestamp with _ | t
  · simpa [mergeUpdates, hu, itemNormal] using h
  · have htz : t ≠ 0 := fun h0 => ht (h0 ▸ hu)
    simpa [mergeUpdates, hu, itemNormal] using htz

theorem applyUpdateAt_idem (id : String) (u : HistoryUpdates) (i : HistoryItem) :
    applyUpdateAt id u (applyUpdateAt id u i) = applyUpdateAt id u i := by
  by_cases hc : i.id = id
  · simp [applyUpdateAt, hc, mergeUpdates_id_field, mergeUpdates_idem]
  · simp [applyUpdateAt, hc]

theorem applyUpdateAt_normal (id : String) (u : HistoryUpdates)
    (i : HistoryItem) (h : itemNormal i) (ht : u.timestamp ≠ some 0) :
    itemNormal (applyUpdateAt id u i) := by
  by_cases hc : i.id = id
  · simpa [applyUpdateAt, hc] using mergeUpdates_normal u i h ht
  · simpa [applyUpdateAt, hc] using h

theorem map_update_no_match (id : String) (u : HistoryUpdates)
    (l : List HistoryItem) (h : ∀ i ∈ l, i.id ≠ id) :
    l.map (applyUpdateAt id u) = l := by
  induction l with
  | nil => rfl
  | cons a t ih =>
    simp only [List.map_cons]
    rw [show applyUpdateAt id u a = a from if_neg (h a (by simp)),
      ih (fun i hi => h i (by simp [hi]))]

theorem saveOp_congr (n1 n2 : Nat) (l1 l2 : List RawItem)
    (h : updateHistory n1 l1 = updateHistory n2 l2) :
    saveOp n1 l1 = saveOp n2 l2 := by
  simp only [saveOp, h]

/-! ## Claim C1 -/

/-- A fresh pending raw item, as `generateMusic` builds it. -/
def rawPending (id : String) (t : Nat) : RawItem :=
  ⟨id, "my love song", some "pending", some t, none, none, none, none⟩

/-- The store after five successive `addToHistory` calls starting empty. -/
def storeAfterFiveAdds : StoreState :=
  addToHistoryOp 5 (rawPending "t5" 5)
    (addToHistoryOp 4 (rawPending "t4" 4)
      (addToHistoryOp 3 (rawPending "t3" 3)
        (addToHistoryOp 2 (rawPending "t2" 2)
          (addToHistoryOp 1 (rawPending "t1" 1) ⟨[], none⟩))))

/-- Claim C1 is false on the code: `addToHistory` never truncates, so adding a
sixth item to a five-item history yields six items and the oldest item `t1` is
still present (`MAX_HISTORY_ITEMS = 5` is only used for display). -/
theorem add_sixth_exceeds_cap :
    storeAfterFiveAdds.history.length = 5 ∧
    ¬ (addToHistoryOp 6 (rawPending "t6" 6) storeAfterFiveAdds).history.length ≤ 5 ∧
    "t1" ∈ (addToHistoryOp 6 (rawPending "t6" 6) storeAfterFiveAdds).history.map
      (fun i => i.id) := by
  decide

/-- Claim C1 (amended): every `addToHistory` call grows the stored list by
exactly one item; no maximum length is enforced on add. -/
theorem addToHistory_length_succ (now : Nat) (item : RawItem) (s : StoreState) :
    (addToHistoryOp now item s).history.length = s.history.length + 1 := by
  simp [addToHistoryOp, saveOp, updateHistory]

/-! ## Claim C4 -/

/-- A persisted list holding a single pending item, as a prior session's save
leaves it. -/
def storedPendingList : StorageVal :=
  .list [rawPending "t1" 1000]

/-- Claim C4 is false on the code: after mounting with a persisted pending
item, the history holds a pending item but the generate button is enabled,
because the guard reads the session-local `pendingCount` (still `0`) and
`isLoading`, not the history. -/
theorem loaded_pending_not_disabled :
    (appMount (some storedPendingList)).store.history.any
      (fun i => decide (i.status = Status.pending)) = true ∧
    generateDisabled (appMount (some storedPendingList)) = false := by
  decide

/-- Claim C4 (amended): generation is disabled exactly while `isLoading` is
set or the session-local `pendingCount` is positive; in particular every state
reached immediately after submitting a generation in the current session has
the button disabled, but pending items that merely arrived via the mount-time
load do not disable it. -/
theorem submit_disables_generation (taskId promptText tagsText : String)
    (now : Nat) (s : AppState) :
    generateDisabled (generateMusicSubmit taskId promptText tagsText now s) = true := by
  simp [generateDisabled, generateMusicSubmit]

/-! ## Claim C6 -/

/-- Claim C6: when the persisted value fails to parse, the mount-time load
leaves the in-memory history at its initial empty value and removes the
corrupted key; no partial recovery is attempted. -/
theorem corrupt_load_resets_empty_and_clears :
    loadHistoryOp ⟨[], some StorageVal.corrupt⟩ = ⟨[], none⟩ ∧
    (appMount (some StorageVal.corrupt)).store.history = [] ∧
    (appMount (some StorageVal.corrupt)).store.storage = none := by
  decide

/-! ## Claim C2 -/

/-- Claim C2: for a pending item checked by the reconciliation poller, an
external `completed` status sets the item completed with the returned song
list (empty list when none is provided) and `completedAt` equal to the current
time; an external `failed` status sets it failed with the returned error
message attached when present; any other external status, and a failed status
request, leave the item unchanged. -/
theorem reconcile_pending_spec (fetch : String → Option TaskData) (now : Nat)
    (item : RawItem) (h : item.status = some "pending") :
    (∀ td, fetch item.id = some td → td.status = "completed" →
      reconcileRaw fetch now item =
        { item with status := some "completed"
                    songs := some (td.output_songs.getD [])
                    error := none
                    completedAt := some now }) ∧
    (∀ td, fetch item.id = some td → td.status = "failed" →
      reconcileRaw fetch now item =
        { item with status := some "failed"
                    songs := none
                    error := td.error_message
                    completedAt := some now }) ∧
    (∀ td, fetch item.id = some td → td.status ≠ "completed" →
      td.status ≠ "failed" → reconcileRaw fetch now item = item) ∧
    (fetch item.id = none → reconcileRaw fetch now item = item) := by
  refine ⟨?_, ?_, ?_, ?_⟩
  · intro td hf hc
    simp [reconcileRaw, h, hf, hc]
  · intro td hf hc
    simp [reconcileRaw, h, hf, hc]
  · intro td hf hc1 hc2
    simp [reconcileRaw, h, hf, hc1, hc2]
  · intro hf
    simp [reconcileRaw, h, hf]

/-- A concrete finished song. -/
def demoSong : Song :=
  ⟨"s1", "My Valentine", ["pop", "romantic"], "songs/s1.mp3", "img/s1.jpg", true⟩

/-- A concrete pending stored item for the C2 witness. -/
def c2Item : RawItem :=
  ⟨"t1", "my love song", some "pending", some 1000, none, none, none, none⟩

/-- A concrete completed task response for the C2 witness. -/
def c2Task : TaskData := ⟨"completed", some [demoSong], none⟩

/-- A status endpoint that answers every id with `c2Task`. -/
def c2Fetch : String → Option TaskData := fun _ => some c2Task

theorem reconcile_pending_spec_witness :
    reconcileRaw c2Fetch 2000 c2Item =
      { c2Item with status := some "completed"
                    songs := some [demoSong]
                    error := none
                    completedAt := some 2000 } := by
  have := (reconcile_pending_spec c2Fetch 2000 c2Item rfl).1 c2Task rfl rfl
  simpa [c2Task] using this

/-! ## Claim C3 -/

/-- The store after submitting one generation and then having the dedicated
per-submission poll loop observe an external `completed` response that carries
no `output.songs` and a `meta.ended_at` of `5`. -/
def storeAfterMetaCompleted : StoreState :=
  updateHistoryItemOp 2000 "t1"
    (submissionCompletedUpdates none none (some 5) 1000 2000)
    (addToHistoryOp 1000 (rawPending "t1" 1000) ⟨[], none⟩)

/-- Claim C3 is false on the code: the per-submission poll loop stores
`songs: output.songs` with no default and `completedAt` straight from
`meta.ended_at`, so a completed response without a song list and with an early
`ended_at` yields a stored completed item whose `songs` is absent and whose
`completedAt` (5) is below its `timestamp` (1000). -/
theorem completed_without_songs_reachable :
    ∃ i ∈ storeAfterMetaCompleted.history,
      i.status = Status.completed ∧ i.songs = none ∧
      i.completedAt = some 5 ∧ i.timestamp = 1000 ∧ 5 < i.timestamp := by
  decide

/-- Claim C3 (amended): the completed-item invariant — status completed
implies a songs list is present and `completedAt` is present and at least the
timestamp — is preserved by every step of the periodic reconciliation poller,
provided the poll happens no earlier than the item's timestamp; the updates of
the per-submission poll loop do not guarantee it. -/
theorem reconcile_preserves_completed_inv (fetch : String → Option TaskData)
    (now : Nat) (item : RawItem) (h : completedInvRawB item = true)
    (hn : item.timestamp.getD 0 ≤ now) :
    completedInvRawB (reconcileRaw fetch now item) = true := by
  by_cases hp : item.status = some "pending"
  · rcases hf : fetch item.id with _ | td
    · simpa [reconcileRaw, hp, hf] using h
    · by_cases hc : td.status = "completed"
      · simp [reconcileRaw, hp, hf, hc, completedInvRawB, hn]
      · by_cases hfl : td.status = "failed"
        · simp [reconcileRaw, hp, hf, hc, hfl, completedInvRawB]
        · simpa [reconcileRaw, hp, hf, hc, hfl] using h
  · simpa [reconcileRaw, hp] using h

/-- A concrete completed stored item for the C3 witness. -/
def c3Item : RawItem :=
  ⟨"t2", "my love song", some "completed", some 1000, some 1500,
    some [demoSong], none, none⟩

/-- A status endpoint that always fails, for the C3 witness. -/
def c3Fetch : String → Option TaskData := fun _ => none

theorem reconcile_preserves_completed_inv_witness :
    completedInvRawB (reconcileRaw c3Fetch 2000 c3Item) = true :=
  reconcile_preserves_completed_inv c3Fetch 2000 c3Item (by decide) (by decide)

/-! ## Claim C5 -/

/-- Claim C5: on a history of normalized items (the shape every save at a
non-zero clock produces), `updateHistoryItem` with an id not present in the
list and `removeFromHistory` with an id not present both leave the stored list
exactly as it was; both are total functions, so no error is raised. -/
theorem missing_id_update_remove_noop (now : Nat) (id : String)
    (u : HistoryUpdates) (s : StoreState)
    (hn : ∀ i ∈ s.history, itemNormal i)
    (hid : ∀ i ∈ s.history, i.id ≠ id) :
    (updateHistoryItemOp now id u s).history = s.history ∧
    (removeFromHistoryOp now id s).history = s.history := by
  constructor
  · show updateHistory now
      ((s.history.map (applyUpdateAt id u)).map HistoryItem.toRaw) = s.history
    rw [map_update_no_match id u s.history hid]
    exact updateHistory_map_toRaw now s.history hn
  · show updateHistory now
      ((s.history.filter (fun i => i.id ≠ id)).map HistoryItem.toRaw) = s.history
    rw [List.filter_eq_self.mpr (fun i hi => by simpa using hid i hi)]
    exact updateHistory_map_toRaw now s.history hn

/-- A concrete one-item store for the C5 witness. -/
def c5Store : StoreState :=
  ⟨[⟨"t1", "my love song", Status.pending, 1000, none, none, none, none⟩], none⟩

/-- A concrete terminal update for the C5 witness. -/
def c5U : HistoryUpdates :=
  ⟨some Status.completed, some (some [demoSong]), some 1500, none, none⟩

theorem missing_id_update_remove_noop_witness :
    (updateHistoryItemOp 7 "absent" c5U c5Store).history = c5Store.history ∧
    (removeFromHistoryOp 7 "absent" c5Store).history = c5Store.history :=
  missing_id_update_remove_noop 7 "absent" c5U c5Store (by decide) (by decide)

/-! ## Claim C7 -/

/-- Claim C7: every save normalizes each item — a missing status defaults to
pending, a missing timestamp defaults to the current time, a status outside
pending/completed/failed is coerced to pending — and the same normalized list
becomes both the in-memory state and the persisted value. -/
theorem save_normalizes_items (now : Nat) (l : List RawItem) (item : RawItem) :
    (saveOp now l).history = updateHistory now l ∧
    (saveOp now l).storage =
      some (.list ((saveOp now l).history.map HistoryItem.toRaw)) ∧
    (item.status = none → (normalizeItem now item).status = Status.pending) ∧
    (item.timestamp = none → (normalizeItem now item).timestamp = now) ∧
    (∀ st, item.status = some st → st ≠ "pending" → st ≠ "completed" →
      st ≠ "failed" → (normalizeItem now item).status = Status.pending) := by
  refine ⟨rfl, rfl, ?_, ?_, ?_⟩
  · intro h
    simp [normalizeItem, normalizeStatus, h]
  · intro h
    simp [normalizeItem, h]
  · intro st h h1 h2 h3
    simp [normalizeItem, normalizeStatus, h, h1, h2, h3]

/-- A raw item with no status and no timestamp, for the C7 witness. -/
def c7Bare : RawItem := ⟨"x", "p", none, none, none, none, none, none⟩

/-- A raw item with an unknown status value, for the C7 witness. -/
def c7Unknown : RawItem := ⟨"y", "q", some "weird", some 3, none, none, none, none⟩

theorem save_normalizes_items_witness :
    (normalizeItem 42 c7Bare).status = Status.pending ∧
    (normalizeItem 42 c7Bare).timestamp = 42 ∧
    (normalizeItem 42 c7Unknown).status = Status.pending :=
  ⟨(save_normalizes_items 42 [] c7Bare).2.2.1 rfl,
   (save_normalizes_items 42 [] c7Bare).2.2.2.1 rfl,
   (save_normalizes_items 42 [] c7Unknown).2.2.2.2 "weird" rfl
     (by decide) (by decide) (by decide)⟩

/-! ## Claim C8 -/

/-- Claim C8: submitting with `voiceType = "female"` yields a request whose
`tags` is exactly `"female_vocals,female_voice,female_singer"` and whose
`negative_tags` is exactly `"male_vocals,male_voice,male_singer"`; no positive
voice tag ever occurs among the negative tags, and selecting one gender makes
the other gender's tag list the negative list. -/
theorem female_voice_request_tags (o : SelectedOptions) (promptText : String)
    (seed : Nat) (h : o.voiceType = "female") :
    (buildRequestInput o promptText seed).tags =
      "female_vocals,female_voice,female_singer" ∧
    (buildRequestInput o promptText seed).negative_tags =
      "male_vocals,male_voice,male_singer" ∧
    (∀ o' : SelectedOptions,
      (voiceTags o').all (fun t => !(negativeTags o').contains t) = true) ∧
    negativeTags o = voiceTags { o with voiceType := "male" } ∧
    (∀ o' : SelectedOptions, o'.voiceType ≠ "female" →
      negativeTags o' = voiceTags { o' with voiceType := "female" }) := by
  have hv : voiceTags o = ["female_vocals", "female_voice", "female_singer"] := by
    simp [voiceTags, h]
  have hng : negativeTags o = ["male_vocals", "male_voice", "male_singer"] := by
    simp [negativeTags, h]
  refine ⟨?_, ?_, ?_, ?_, ?_⟩
  · show String.intercalate "," (voiceTags o) = _
    rw [hv]
    decide
  · show String.intercalate "," (negativeTags o) = _
    rw [hng]
    decide
  · intro o'
    by_cases hf : o'.voiceType = "female" <;>
      simp [voiceTags, negativeTags, hf]
  · rw [hng]
    rfl
  · intro o' hf
    unfold negativeTags
    rw [if_neg hf]
    rfl

/-- Concrete style options for the C8 witness. -/
def c8Opts : SelectedOptions := ⟨"pop", "female", "romantic", "modern"⟩

theorem female_voice_request_tags_witness :
    (buildRequestInput c8Opts "la la la" 123456).tags =
      "female_vocals,female_voice,female_singer" ∧
    (buildRequestInput c8Opts "la la la" 123456).negative_tags =
      "male_vocals,male_voice,male_singer" :=
  ⟨(female_voice_request_tags c8Opts "la la la" 123456 rfl).1,
   (female_voice_request_tags c8Opts "la la la" 123456 rfl).2.1⟩

/-! ## Claim C9 -/

/-- Claim C9: applying one and the same terminal-state update (status
completed, with whatever song list and accompanying fields it carries) to the
same id twice leaves the store exactly as after the first application: the
merge overwrites each mentioned field with the same value again and the
re-normalization is the identity on the already-normalized result (the update
may not carry an explicit zero timestamp, which the save would re-stamp with
the current time). -/
theorem terminal_update_idempotent (now1 now2 : Nat) (id : String)
    (u : HistoryUpdates) (s : StoreState)
    (hn : ∀ i ∈ s.history, itemNormal i)
    (_hst : u.status = some Status.completed)
    (ht : u.timestamp ≠ some 0) :
    updateHistoryItemOp now2 id u (updateHistoryItemOp now1 id u s) =
      updateHistoryItemOp now1 id u s := by
  have hAnorm : ∀ i ∈ s.history.map (applyUpdateAt id u), itemNormal i := by
    intro i hi
    obtain ⟨j, hj, rfl⟩ := List.mem_map.1 hi
    exact applyUpdateAt_normal id u j (hn j hj) ht
  have h1 : (updateHistoryItemOp now1 id u s).history =
      s.history.map (applyUpdateAt id u) :=
    updateHistory_map_toRaw now1 (s.history.map (applyUpdateAt id u)) hAnorm
  have h2 : (updateHistoryItemOp now1 id u s).history.map (applyUpdateAt id u) =
      s.history.map (applyUpdateAt id u) := by
    rw [h1, List.map_map, show applyUpdateAt id u ∘ applyUpdateAt id u =
      applyUpdateAt id u from funext (applyUpdateAt_idem id u)]
  have hAnorm2 : ∀ i ∈ (updateHistoryItemOp now1 id u s).history.map
      (applyUpdateAt id u), itemNormal i := by
    rw [h2]
    exact hAnorm
  have hh : updateHistory now2
      (((updateHistoryItemOp now1 id u s).history.map (applyUpdateAt id u)).map
        HistoryItem.toRaw) =
      updateHistory now1 ((s.history.map (applyUpdateAt id u)).map
        HistoryItem.toRaw) := by
    rw [updateHistory_map_toRaw now2 _ hAnorm2,
      updateHistory_map_toRaw now1 _ hAnorm, h2]
  exact saveOp_congr now2 now1 _ _ hh

/-- A concrete one-item pending store for the C9 witness. -/
def c9Store : StoreState :=
  ⟨[⟨"t1", "my love song", Status.pending, 1000, none, none, none, none⟩], none⟩

/-- A concrete completed terminal update for the C9 witness. -/
def c9U : HistoryUpdates :=
  ⟨some Status.completed, some (some [demoSong]), some 1500, some 1000, none⟩

theorem terminal_update_idempotent_witness :
    updateHistoryItemOp 3000 "t1" c9U (updateHistoryItemOp 2500 "t1" c9U c9Store) =
      updateHistoryItemOp 2500 "t1" c9U c9Store :=
  terminal_update_idempotent 2500 3000 "t1" c9U c9Store (by decide) rfl (by decide)

/-! ## Claim C10 -/

/-- Claim C10: whatever status and `completedAt` the input to `addToHistory`
carries, the entry actually stored has status pending and no `completedAt`,
and it sits at the front of the previously stored (normalized) list. -/
theorem add_forces_pending_front (now : Nat) (item : RawItem) (s : StoreState)
    (hn : ∀ i ∈ s.history, itemNormal i) :
    ∃ e, (addToHistoryOp now item s).history = e :: s.history ∧
      e.status = Status.pending ∧ e.completedAt = none := by
  refine ⟨normalizeItem now { item with status := some "pending", completedAt := none },
    ?_, ?_, ?_⟩
  · show updateHistory now
      ({ item with status := some "pending", completedAt := none }
        :: s.history.map HistoryItem.toRaw) =
      _ :: s.history
    simp only [updateHistory, List.map_cons]
    rw [show (s.history.map HistoryItem.toRaw).map (normalizeItem now) = s.history
      from updateHistory_map_toRaw now s.history hn]
  · rfl
  · rfl

/-- An input item already claiming to be completed, for the C10 witness. -/
def c10Item : RawItem :=
  ⟨"t9", "my love song", some "completed", some 50, some 999, some [demoSong],
    none, none⟩

/-- A one-item store whose entry is completed, for the C10 witness. -/
def c10Store : StoreState :=
  ⟨[⟨"t0", "older song", Status.completed, 10, some 20, some [], none, none⟩], none⟩

theorem add_forces_pending_front_witness :
    ∃ e, (addToHistoryOp 100 c10Item c10Store).history = e :: c10Store.history ∧
      e.status = Status.pending ∧ e.completedAt = none :=
  add_forces_pending_front 100 c10Item c10Store (by decide)

end ValentineSong
